import Mathlib

/-!
Verification development for the ramda-extras browser playground.

The repository is a single-page REPL: an editor pane, a debounced
transpile-evaluate-render pipeline (`src/logic/handleCodeChange.tsx`),
and an output pane.  This file shallowly embeds that pipeline and the
auxiliary pieces the specification talks about:

* `handleCodeChange` — the pipeline routine, embedded as a pure state
  transformer over a `PageState`, parameterised by a `JsEnv` oracle that
  records what the external calls (the sucrase `transform`, the
  `window.eval` run, the TypeError raised by calling `.replace` on
  `undefined`) return on this run.  JavaScript values that only flow
  through `JSON.stringify` are represented by how that call behaves on
  them (`JsonBehavior`).
* the library-namespace merger (`ramdaKeys` / `ramdaAdjunctKeys` /
  `purifyKeys` computation, `src/logic/handleCodeChange.tsx` lines 11-13)
  and the destructuring prelude's name-resolution semantics;
* the debounce wrapper (`src/ui/input/input.tsx`, `debounced`);
* the `Object.defineProperties` installation of the `R` / `RA` / `P`
  globals;
* the `code` URL-parameter encode/decode round trip
  (`src/config/editor.ts` and the nav `copyCode` action), modelled at the
  level of UTF-8 bytes, which is what standard URL encoding operates on.
-/

/-- JavaScript `String.prototype.replace` with a plain string pattern:
does `pat` occur at the head of the list?  (Helper for removing the
first occurrence of a substring, as `.replace('"use strict"', '')`
does in the source.) -/
def leadMatch : List Char → List Char → Bool
  | [], _ => true
  | _ :: _, [] => false
  | p :: ps, c :: cs => p == c && leadMatch ps cs

/-- Remove the first occurrence of `pat` from the list (JS
`s.replace(pat, '')` with a string pattern replaces only the first
occurrence). -/
def removeFirstAux (pat : List Char) : List Char → List Char
  | [] => []
  | c :: cs =>
      if leadMatch pat (c :: cs) then (c :: cs).drop pat.length
      else c :: removeFirstAux pat cs

/-- `s.replace(pat, '')` for strings: removes the first occurrence of
`pat` in `s`, anywhere in the string. -/
def removeFirstSub (pat s : String) : String :=
  ⟨removeFirstAux pat.data s.data⟩

/-- The literal pattern used at `handleCodeChange.tsx` line 48:
`'"use strict"'` (twelve characters, double quotes included). -/
def useStrictLit : String := "\"use strict\""

/-- A JavaScript value caught by the pipeline's `catch` clause:
either an `instanceof Error` value (message and optional stack) or any
other thrown value, represented by its string coercion, which is all
the catch branch uses of it (thrown values never flow anywhere else). -/
inductive Thrown where
  | error (message : String) (stack : Option String)
  | nonError (coerced : String)
deriving DecidableEq, Repr

/-- How `JSON.stringify(v, null, 2)` behaves on the (defined) value the
evaluation produced: it returns a string, returns `undefined` (as it
does for functions and symbols), or throws (as it does on circular
structures). -/
inductive JsonBehavior where
  | str (s : String)
  | undef
  | raises (message : String) (stack : Option String)
deriving DecidableEq, Repr

/-- The value `window.eval` returned: `undefined`, or a defined value
represented by its `JSON.stringify` behaviour. -/
inductive EvalValue where
  | undef
  | defined (j : JsonBehavior)
deriving DecidableEq, Repr

/-- Result of one `window.eval` call: the console-log entries it pushed
into `logData` (each entry the list of string-coerced arguments of one
`console.log` call) and either a returned value or a thrown one. -/
structure EvalOut where
  logs : List (List String)
  outcome : Except Thrown EvalValue
deriving Repr

/-- Oracle for one run of the pipeline: what the external calls return.
`transform` is the sucrase transpiler (may throw); `evalCode` is the
`window.eval` of the prelude-wrapped code; `kR`/`kRA`/`kP` are the three
merged key lists spliced into the prelude; `replaceErrMessage` /
`replaceErrStack` describe the TypeError the host raises when
`.replace` is invoked on `undefined` (the JSON.stringify-returned-
undefined case); `defineErr` is the TypeError `Object.defineProperties`
would raise on redefining a tampered non-writable global. -/
structure JsEnv where
  kR : List String
  kRA : List String
  kP : List String
  transform : String → Except Thrown String
  evalCode : String → EvalOut
  replaceErrMessage : String
  replaceErrStack : Option String
  defineErr : Thrown

/-- One of the three library namespace objects installed on `window`. -/
inductive LibVal where
  | R
  | RA
  | P
deriving DecidableEq, Repr

/-- A property slot on the global object: its value and its `writable`
attribute (the pipeline always installs with `writable: false`). -/
structure PropSlot where
  value : LibVal
  writable : Bool
deriving DecidableEq, Repr

/-- The three global-object slots the pipeline touches (`window.R`,
`window.RA`, `window.P`); `none` = not yet defined. -/
structure Globals where
  gR : Option PropSlot
  gRA : Option PropSlot
  gP : Option PropSlot
deriving DecidableEq, Repr

/-- `Object.defineProperty(window, _, { value := v, writable := false })`
on one slot: installs the slot if absent; redefining an existing
non-writable (non-configurable) property succeeds only when the new
descriptor changes nothing, i.e. the value is the same — otherwise a
TypeError (`Except.error`). -/
def defineNonWritable : Option PropSlot → LibVal → Except Unit PropSlot
  | none, v => .ok ⟨v, false⟩
  | some p, v =>
      if p.writable then .ok ⟨v, false⟩
      else if p.value = v then .ok ⟨v, false⟩
      else .error ()

/-- The `Object.defineProperties(window, { R: …, RA: …, P: … })` call at
`handleCodeChange.tsx` lines 26-30: defines the three properties in
order, stopping (and throwing) at the first failure; the error carries
the partially updated globals. -/
def defineLibs (g : Globals) : Except Globals Globals :=
  match defineNonWritable g.gR .R with
  | .error _ => .error g
  | .ok r =>
    let g1 : Globals := { g with gR := some r }
    match defineNonWritable g1.gRA .RA with
    | .error _ => .error g1
    | .ok ra =>
      let g2 : Globals := { g1 with gRA := some ra }
      match defineNonWritable g2.gP .P with
      | .error _ => .error g2
      | .ok p => .ok { g2 with gP := some p }

/-- The page state the pipeline reads and writes: whether the two Monaco
widgets are mounted (`output.value` / `editor.value` non-null), the
editor text, the output pane text, the global slots, and the `logData`
signal. -/
structure PageState where
  editorMounted : Bool
  outputMounted : Bool
  editorText : String
  outputText : String
  globals : Globals
  logs : List (List String)
deriving Repr

/-- The composite program text built at `handleCodeChange.tsx` lines
35-40: three destructuring `const` declarations followed by the
transpiled user code. -/
def buildCode (env : JsEnv) (js : String) : String :=
  "\n        const \x7b" ++ String.intercalate "," env.kR ++
    "\x7d = R;\n        const \x7b" ++ String.intercalate "," env.kRA ++
    "\x7d = RA;\n        const \x7b" ++ String.intercalate "," env.kP ++
    "\x7d = P;\n        " ++ js ++ "\n      "

/-- `logData.value.map(join(', ')).join('\n')` (line 44). -/
def joinLogs (logs : List (List String)) : String :=
  String.intercalate "\n" (logs.map (String.intercalate ", "))

/-- The catch branch (lines 55-62): format the caught value and write it
into the output pane; nothing else in the state changes. -/
def renderThrown : Thrown → String
  | .error m st => m ++ "\n" ++ st.getD ""
  | .nonError x => x

/-- Write the formatted caught value into the output pane. -/
def catchBranch (e : Thrown) (s : PageState) : PageState :=
  { s with outputText := renderThrown e }

/-- The pipeline routine `handleCodeChange` (lines 15-64), embedded as a
state transformer.  Faithful to the source's order of effects: guard on
both widgets mounted; transpile (throws escape to the catch); reset
`logData`; install the three globals with `Object.defineProperties`
(a TypeError there is also caught); build the prelude-wrapped code;
`window.eval` it (logs pushed during evaluation land in `logData`
whether or not the run throws); then render: a defined result is
JSON-stringified — a string result has its first `"use strict"`
occurrence removed and is written after the logged text and a newline;
`JSON.stringify` returning `undefined` makes the subsequent `.replace`
throw a TypeError, and a `JSON.stringify` throw lands in the same
catch; an `undefined` result writes the logged text when non-empty and
the empty string otherwise. -/
def handleCodeChange (env : JsEnv) (s : PageState) : PageState :=
  if s.outputMounted && s.editorMounted then
    match env.transform s.editorText with
    | .error e => catchBranch e s
    | .ok js =>
      let s1 : PageState := { s with logs := [] }
      match defineLibs s1.globals with
      | .error gPart => catchBranch env.defineErr { s1 with globals := gPart }
      | .ok g =>
        let s2 : PageState := { s1 with globals := g }
        let out := env.evalCode (buildCode env js)
        let s3 : PageState := { s2 with logs := out.logs }
        match out.outcome with
        | .error e => catchBranch e s3
        | .ok v =>
          let loggedText := joinLogs s3.logs
          match v with
          | .defined (.str str) =>
              { s3 with outputText :=
                  loggedText ++ "\n" ++ removeFirstSub useStrictLit str }
          | .defined .undef =>
              catchBranch (.error env.replaceErrMessage env.replaceErrStack) s3
          | .defined (.raises m st) => catchBranch (.error m st) s3
          | .undef =>
              if loggedText ≠ "" then { s3 with outputText := loggedText }
              else { s3 with outputText := "" }
  else s

/-! ## Library namespace merger and prelude resolution -/

/-- ramda's `without(xs, ys)`: the elements of `ys` that are not in
`xs` (`handleCodeChange.tsx` lines 12-13 use it on key lists). -/
def without (xs ys : List String) : List String :=
  ys.filter (fun y => decide (y ∉ xs))

/-- `ramdaAdjunctKeys = without(ramdaKeys, keys(RA))` (line 12),
parameterised by the two libraries' key lists. -/
def mergedKeysB (kR kRA : List String) : List String :=
  without kR kRA

/-- `purifyKeys = without([...ramdaKeys, ...ramdaAdjunctKeys], keys(P))`
(line 13). -/
def mergedKeysC (kR kRA kP : List String) : List String :=
  without (kR ++ mergedKeysB kR kRA) kP

/-- Name resolution through the generated destructuring prelude
(`buildCode`): a name bound by `const {…} = R` resolves to `R[n]`, one
bound by `const {…} = RA` to `RA[n]`, one bound by `const {…} = P` to
`P[n]`; the three bound lists are `kR`, `mergedKeysB`, `mergedKeysC`.
`tR`/`tRA`/`tP` are the three libraries' export tables. -/
def preludeResolve {V : Type} (tR tRA tP : String → V)
    (kR kRA kP : List String) (n : String) : Option V :=
  if n ∈ kR then some (tR n)
  else if n ∈ mergedKeysB kR kRA then some (tRA n)
  else if n ∈ mergedKeysC kR kRA kP then some (tP n)
  else none

/-! ## Debounce (`src/ui/input/input.tsx` lines 21-28) -/

/-- Simulation of the `debounced` wrapper around the pipeline.
`pending` is the deadline of the armed `setTimeout` (if any), `cur` the
current editor content, and the list holds the remaining content-change
notifications as (time, content-after-change) pairs in time order.
Before a notification is processed, an armed timer whose deadline has
passed fires and the pipeline executes, reading the editor content at
fire time; the notification then replaces any armed timer
(`clearTimeout` + `setTimeout(fn, delay)`).  After the last
notification, a still-armed timer fires.  Returns the list of editor
contents the pipeline executed with, in order. -/
def debounceRun (delay : Nat) (pending : Option Nat) (cur : String) :
    List (Nat × String) → List String
  | [] =>
    match pending with
    | some _ => [cur]
    | none => []
  | (t, c) :: rest =>
    match pending with
    | some d =>
        if d ≤ t then cur :: debounceRun delay (some (t + delay)) c rest
        else debounceRun delay (some (t + delay)) c rest
    | none => debounceRun delay (some (t + delay)) c rest

/-- Consecutive notifications are in time order and each arrives before
the deadline `t + delay` armed by the previous one. -/
def chainFrom (delay t : Nat) : List (Nat × String) → Bool
  | [] => true
  | (t1, _) :: rest => t ≤ t1 && t1 < t + delay && chainFrom delay t1 rest

/-- A whole notification sequence is gap-valid: every consecutive pair
is separated by less than `delay`. -/
def timesOk (delay : Nat) : List (Nat × String) → Bool
  | [] => true
  | (t1, _) :: rest => chainFrom delay t1 rest

/-! ## `code` URL parameter (`src/config/editor.ts`, nav `copyCode`) -/

/-- Is the byte left unescaped by the application/x-www-form-urlencoded
serializer used by `URLSearchParams.set`?  (ASCII alphanumerics and
`*`, `-`, `.`, `_`.) -/
def formSafe (b : Nat) : Bool :=
  (0x30 ≤ b && b ≤ 0x39) || (0x41 ≤ b && b ≤ 0x5A) ||
    (0x61 ≤ b && b ≤ 0x7A) || b == 0x2A || b == 0x2D ||
    b == 0x2E || b == 0x5F

/-- Upper-case hex digit for a nibble, as `URLSearchParams` emits. -/
def hexDigitChar (n : Nat) : Char :=
  if n < 10 then Char.ofNat (0x30 + n) else Char.ofNat (55 + n)

/-- Percent-encode one UTF-8 byte of the parameter value: space becomes
`+`, safe bytes stay themselves, everything else becomes `%XX`. -/
def encodeByte (b : Nat) : List Char :=
  if b = 0x20 then ['+']
  else if formSafe b then [Char.ofNat b]
  else ['%', hexDigitChar (b / 16), hexDigitChar (b % 16)]

/-- `url.searchParams.set("code", text)` followed by `url.toString()`:
the serialized parameter value, from the UTF-8 bytes of the text. -/
def encodeParam (bs : List Nat) : List Char :=
  (bs.map encodeByte).flatten

/-- Value of a hex digit character (either case). -/
def hexVal (c : Char) : Nat :=
  if '0' ≤ c && c ≤ '9' then c.toNat - 48
  else if 'A' ≤ c && c ≤ 'F' then c.toNat - 55
  else if 'a' ≤ c && c ≤ 'f' then c.toNat - 87
  else 0

/-- `new URLSearchParams(search).get("code")`: decode the serialized
parameter value back to UTF-8 bytes — `+` to space, `%XX` to the byte,
anything else to its own code point.  (On the serializer's output the
`%` case always sees two hex digits.) -/
def decodeParam : List Char → List Nat
  | [] => []
  | c :: c1 :: c2 :: cs =>
    if c = '+' then 0x20 :: decodeParam (c1 :: c2 :: cs)
    else if c = '%' then (16 * hexVal c1 + hexVal c2) :: decodeParam cs
    else c.toNat :: decodeParam (c1 :: c2 :: cs)
  | c :: cs =>
    if c = '+' then 0x20 :: decodeParam cs
    else c.toNat :: decodeParam cs

/-- The nav `copyCode` action (share button): reads the editor text and,
when it is non-empty (`if (code)`), writes its encoding into the `code`
query parameter of the page URL. -/
def copyCode (editorText : List Nat) : Option (List Char) :=
  if editorText.isEmpty then none else some (encodeParam editorText)

/-- `initialCode` (`src/config/editor.ts`): the decoded `code` query
parameter of the fresh page, if present. -/
def initialCode (queryCode : Option (List Char)) : Option (List Nat) :=
  queryCode.map decodeParam

/-- The fresh editor's initial content: `editorOptions.value` is
`initialCode`; Monaco renders an `undefined` value as empty content. -/
def initialEditorContent (queryCode : Option (List Char)) : List Nat :=
  (initialCode queryCode).getD []

/-! ## Shared constants and helper lemmas -/

/-- Global object with none of the three library slots defined yet
(fresh page, before the first pipeline run). -/
def freshGlobals : Globals := ⟨none, none, none⟩

/-- The three library slots as the pipeline installs them: their
namespace objects, `writable: false`. -/
def libInstalled : Globals :=
  ⟨some ⟨.R, false⟩, some ⟨.RA, false⟩, some ⟨.P, false⟩⟩

theorem defineLibs_fresh : defineLibs freshGlobals = .ok libInstalled := rfl

theorem defineLibs_installed : defineLibs libInstalled = .ok libInstalled := rfl

/-- A concrete page state for witnesses: both widgets mounted, the given
editor text, a previous output, fresh globals, no logs. -/
def mkState (text : String) : PageState :=
  { editorMounted := true
    outputMounted := true
    editorText := text
    outputText := "prev"
    globals := freshGlobals
    logs := [] }

/-- A concrete oracle for witnesses: fixed short key lists, a transpiler
that returns `tr` on any input, an evaluator that returns `out` on any
code, and fixed host error texts. -/
def mkEnv (tr : Except Thrown String) (out : EvalOut) : JsEnv :=
  { kR := ["zip"]
    kRA := ["mapIndexed"]
    kP := ["Maybe"]
    transform := fun _ => tr
    evalCode := fun _ => out
    replaceErrMessage := "Cannot read properties of undefined"
    replaceErrStack := some "TypeError: Cannot read properties of undefined"
    defineErr := .error "Cannot redefine property" none }

/-! ## C9 — the pipeline never touches the editor pane -/

/-- C9: for every run of the transpile-evaluate-render pipeline —
whatever the transpiler, the global installation, the evaluation and the
serialization do — the editor pane's content (and its mounted handle)
is unchanged: the pipeline only reads the editor text; its writes go to
the output pane (and to the `logData` cell and the three global slots,
never to the editor). -/
theorem handleCodeChange_editor_frame (env : JsEnv) (s : PageState) :
    (handleCodeChange env s).editorText = s.editorText ∧
      (handleCodeChange env s).editorMounted = s.editorMounted := by
  unfold handleCodeChange catchBranch
  dsimp only
  constructor <;> ((repeat' split) <;> rfl)

/-! ## C4 — error rendering -/

/-- C4: for every run in which the transpilation throws, or in which the
transpilation succeeds, the global installation succeeds and the
evaluation throws, the caught value `e` is rendered into the output
pane: an `Error`-like value as `message ++ "\n" ++ (stack ?? "")`, any
other thrown value as its string coercion (`renderThrown` is exactly
that formatting, from `handleCodeChange.tsx` lines 56-60). -/
theorem handleCodeChange_renders_thrown (env : JsEnv) (s : PageState) (e : Thrown)
    (h1 : s.outputMounted = true) (h2 : s.editorMounted = true)
    (h3 : env.transform s.editorText = .error e ∨
      ∃ js g, env.transform s.editorText = .ok js ∧
        defineLibs s.globals = .ok g ∧
        (env.evalCode (buildCode env js)).outcome = .error e) :
    (handleCodeChange env s).outputText = renderThrown e := by
  unfold handleCodeChange
  rw [h1, h2]
  rcases h3 with h3 | ⟨js, g, h3, h4, h5⟩
  · simp [h3, catchBranch]
  · simp [h3, h4, h5, catchBranch]

/-- Witness for C4: a run whose transpilation throws a syntax error
renders `message ++ "\n" ++ stack` into the output pane. -/
theorem handleCodeChange_renders_thrown_witness :
    (handleCodeChange
        (mkEnv (.error (.error "Unexpected token" (some "SyntaxError")))
          ⟨[], .ok .undef⟩)
        (mkState "const = ;")).outputText = "Unexpected token\nSyntaxError" :=
  handleCodeChange_renders_thrown
    (mkEnv (.error (.error "Unexpected token" (some "SyntaxError"))) ⟨[], .ok .undef⟩)
    (mkState "const = ;") (.error "Unexpected token" (some "SyntaxError"))
    rfl rfl (Or.inl rfl)

/-! ## Reduction of a run that reaches the render stage -/

/-- Helper: when both widgets are mounted, the transpile succeeds and
`Object.defineProperties` succeeds, the run reduces to the render stage
over the evaluation outcome. -/
theorem handleCodeChange_run (env : JsEnv) (s : PageState) (js : String)
    (g : Globals) (out : EvalOut)
    (h1 : s.outputMounted = true) (h2 : s.editorMounted = true)
    (h3 : env.transform s.editorText = .ok js)
    (h4 : defineLibs s.globals = .ok g)
    (h5 : env.evalCode (buildCode env js) = out) :
    handleCodeChange env s =
      match out.outcome with
      | .error e =>
          { s with
            globals := g
            logs := out.logs
            outputText := renderThrown e }
      | .ok (.defined (.str str)) =>
          { s with
            globals := g
            logs := out.logs
            outputText :=
              joinLogs out.logs ++ "\n" ++ removeFirstSub useStrictLit str }
      | .ok (.defined .undef) =>
          { s with
            globals := g
            logs := out.logs
            outputText :=
              renderThrown (.error env.replaceErrMessage env.replaceErrStack) }
      | .ok (.defined (.raises m st)) =>
          { s with
            globals := g
            logs := out.logs
            outputText := renderThrown (.error m st) }
      | .ok .undef =>
          if joinLogs out.logs ≠ "" then
            { s with
              globals := g
              logs := out.logs
              outputText := joinLogs out.logs }
          else
            { s with
              globals := g
              logs := out.logs
              outputText := "" } := by
  unfold handleCodeChange catchBranch
  have hcond : (s.outputMounted && s.editorMounted) = true := by
    rw [h1, h2]; rfl
  rw [if_pos hcond, h3]
  dsimp only
  rw [h4]
  dsimp only
  rw [h5]
  rcases h6 : out.outcome with e | v
  · rfl
  · rcases v with _ | j
    · rfl
    · rcases j with str | _ | ⟨m, st⟩ <;> rfl

/-! ## C1 — success rendering -/

/-- C1 counterexample: a snippet evaluating to `2` (no logging) does not
set the output pane to `JSON.stringify(2, null, 2) = "2"`: line 49
always writes `loggedText + '\n' + evalText`, so the pane holds a
leading newline followed by `2`. -/
theorem handleCodeChange_c1_cex :
    (handleCodeChange (mkEnv (.ok "2") ⟨[], .ok (.defined (.str "2"))⟩)
        (mkState "2")).outputText = "\n2" ∧
      (handleCodeChange (mkEnv (.ok "2") ⟨[], .ok (.defined (.str "2"))⟩)
          (mkState "2")).outputText ≠ removeFirstSub useStrictLit "2" := by
  constructor
  · decide
  · decide

/-- C1 as amended: for every run in which the transpile, global
installation and evaluation succeed with a defined result whose
`JSON.stringify(·, null, 2)` form is the string `str`, the output pane
is set to `loggedText ++ "\n" ++ evalText`, where `loggedText` is the
joined console-log text of the run (empty when nothing was logged) and
`evalText` is `str` with the first occurrence of the string
`"use strict"` (double quotes included, anywhere in the string)
removed. -/
theorem handleCodeChange_success_text (env : JsEnv) (s : PageState)
    (js : String) (g : Globals) (out : EvalOut) (str : String)
    (h1 : s.outputMounted = true) (h2 : s.editorMounted = true)
    (h3 : env.transform s.editorText = .ok js)
    (h4 : defineLibs s.globals = .ok g)
    (h5 : env.evalCode (buildCode env js) = out)
    (h6 : out.outcome = .ok (.defined (.str str))) :
    (handleCodeChange env s).outputText =
      joinLogs out.logs ++ "\n" ++ removeFirstSub useStrictLit str := by
  rw [handleCodeChange_run env s js g out h1 h2 h3 h4 h5, h6]

/-- Witness for the amended C1: a run that logged `1, 2` and whose
result stringifies to `"use strict";IntercalOfFive` renders the logged
line, a newline, and the stringified text with the first
`"use strict"` occurrence removed. -/
theorem handleCodeChange_success_text_witness :
    (handleCodeChange
        (mkEnv (.ok "5") ⟨[["1", "2"]], .ok (.defined (.str "\"use strict\";5"))⟩)
        (mkState "5")).outputText = "1, 2\n;5" := by
  rw [handleCodeChange_success_text
      (mkEnv (.ok "5") ⟨[["1", "2"]], .ok (.defined (.str "\"use strict\";5"))⟩)
      (mkState "5") "5" libInstalled
      ⟨[["1", "2"]], .ok (.defined (.str "\"use strict\";5"))⟩
      "\"use strict\";5" rfl rfl rfl rfl rfl rfl]
  decide

/-! ## C2 — undefined result -/

/-- C2 counterexample: a snippet whose final expression is `undefined`
but which logged `hi` via `console.log` leaves the pane holding `hi`,
not the empty string (line 51 writes `loggedText` in that case). -/
theorem handleCodeChange_c2_cex :
    (handleCodeChange (mkEnv (.ok "u") ⟨[["hi"]], .ok .undef⟩)
        (mkState "u")).outputText = "hi" ∧
      (handleCodeChange (mkEnv (.ok "u") ⟨[["hi"]], .ok .undef⟩)
          (mkState "u")).outputText ≠ "" := by
  constructor
  · decide
  · decide

/-- C2 as amended: when the evaluation returns `undefined`, the output
pane is set to the joined console-log text when that text is non-empty
and to the empty string otherwise; the result value itself is never
stringified, so an `undefined` result never renders as the literal text
`undefined`. -/
theorem handleCodeChange_undef_text (env : JsEnv) (s : PageState)
    (js : String) (g : Globals) (out : EvalOut)
    (h1 : s.outputMounted = true) (h2 : s.editorMounted = true)
    (h3 : env.transform s.editorText = .ok js)
    (h4 : defineLibs s.globals = .ok g)
    (h5 : env.evalCode (buildCode env js) = out)
    (h6 : out.outcome = .ok .undef) :
    (handleCodeChange env s).outputText =
      if joinLogs out.logs ≠ "" then joinLogs out.logs else "" := by
  rw [handleCodeChange_run env s js g out h1 h2 h3 h4 h5, h6]
  split <;> first | (split <;> rfl) | simp_all

/-- Witness for the amended C2: an `undefined` result with no logging
clears the output pane to the empty string. -/
theorem handleCodeChange_undef_text_witness :
    (handleCodeChange (mkEnv (.ok "u") ⟨[], .ok .undef⟩)
        (mkState "undefined")).outputText = "" := by
  rw [handleCodeChange_undef_text (mkEnv (.ok "u") ⟨[], .ok .undef⟩)
      (mkState "undefined") "u" libInstalled ⟨[], .ok .undef⟩
      rfl rfl rfl rfl rfl rfl]
  decide

/-! ## C5 — serialization error -/

/-- C5 counterexample: `JSON.stringify` sits inside the `try` block
(line 48 is between lines 17 and 55), so when it throws on a circular
value the exception is caught and rendered into the output pane —
replacing the previous pane text — instead of propagating uncaught as
the claim states. -/
theorem handleCodeChange_c5_cex :
    (handleCodeChange
        (mkEnv (.ok "c")
          ⟨[], .ok (.defined (.raises "Converting circular structure to JSON"
              (some "TypeError")))⟩)
        (mkState "c")).outputText = "Converting circular structure to JSON\nTypeError" ∧
      (handleCodeChange
          (mkEnv (.ok "c")
            ⟨[], .ok (.defined (.raises "Converting circular structure to JSON"
                (some "TypeError")))⟩)
          (mkState "c")).outputText ≠ (mkState "c").outputText := by
  constructor
  · decide
  · decide

/-- C5 as amended: a serialization error raised while rendering a
successfully computed value (`JSON.stringify` throwing, e.g. on a
circular reference) is caught by the pipeline's try/catch like any
other error and turned into output-pane display text — the error's
message, a newline and its stack. -/
theorem handleCodeChange_stringify_throw (env : JsEnv) (s : PageState)
    (js : String) (g : Globals) (out : EvalOut) (m : String)
    (st : Option String)
    (h1 : s.outputMounted = true) (h2 : s.editorMounted = true)
    (h3 : env.transform s.editorText = .ok js)
    (h4 : defineLibs s.globals = .ok g)
    (h5 : env.evalCode (buildCode env js) = out)
    (h6 : out.outcome = .ok (.defined (.raises m st))) :
    (handleCodeChange env s).outputText = m ++ "\n" ++ st.getD "" := by
  rw [handleCodeChange_run env s js g out h1 h2 h3 h4 h5, h6]
  rfl

/-- Witness for the amended C5: a concrete circular-structure throw is
rendered as message, newline, stack. -/
theorem handleCodeChange_stringify_throw_witness :
    (handleCodeChange
        (mkEnv (.ok "cc") ⟨[], .ok (.defined (.raises "circular" none))⟩)
        (mkState "cc")).outputText = "circular\n" := by
  rw [handleCodeChange_stringify_throw
      (mkEnv (.ok "cc") ⟨[], .ok (.defined (.raises "circular" none))⟩)
      (mkState "cc") "cc" libInstalled
      ⟨[], .ok (.defined (.raises "circular" none))⟩ "circular" none
      rfl rfl rfl rfl rfl rfl]
  decide

/-! ## C10 — JSON.stringify returning undefined -/

/-- C10: when the evaluation returns a defined value on which
`JSON.stringify(·, null, 2)` returns `undefined` (a function, a
symbol), the value is not displayed: the `.replace` call on `undefined`
throws a TypeError that the same try/catch catches, so the output pane
shows that TypeError's message and stack, and the run completes
normally (the page does not crash). -/
theorem handleCodeChange_replace_on_undefined (env : JsEnv) (s : PageState)
    (js : String) (g : Globals) (out : EvalOut)
    (h1 : s.outputMounted = true) (h2 : s.editorMounted = true)
    (h3 : env.transform s.editorText = .ok js)
    (h4 : defineLibs s.globals = .ok g)
    (h5 : env.evalCode (buildCode env js) = out)
    (h6 : out.outcome = .ok (.defined .undef)) :
    (handleCodeChange env s).outputText =
      env.replaceErrMessage ++ "\n" ++ env.replaceErrStack.getD "" := by
  rw [handleCodeChange_run env s js g out h1 h2 h3 h4 h5, h6]
  rfl

/-- Witness for C10: a snippet evaluating to a function renders the
host's TypeError for `.replace` on `undefined`. -/
theorem handleCodeChange_replace_on_undefined_witness :
    (handleCodeChange (mkEnv (.ok "f") ⟨[], .ok (.defined .undef)⟩)
        (mkState "x => x")).outputText =
      "Cannot read properties of undefined\nTypeError: Cannot read properties of undefined" := by
  rw [handleCodeChange_replace_on_undefined
      (mkEnv (.ok "f") ⟨[], .ok (.defined .undef)⟩)
      (mkState "x => x") "f" libInstalled ⟨[], .ok (.defined .undef)⟩
      rfl rfl rfl rfl rfl rfl]
  decide

/-! ## C7 — the three global references -/

/-- C7: starting from a fresh page (no `R`/`RA`/`P` slots) or from a
page on which the pipeline has already run (slots installed), any run
whose transpile succeeds leaves the global slots equal to
`libInstalled`: the three library references with `writable: false`.
The repeated `Object.defineProperties` call is idempotent — redefining
a non-writable slot with the same value and attributes changes nothing
— so the references are installed once and every later run leaves them
unchanged, read-only shared state for the evaluation step. -/
theorem handleCodeChange_globals_readonly (env : JsEnv) (s : PageState)
    (js : String)
    (h1 : s.outputMounted = true) (h2 : s.editorMounted = true)
    (h3 : s.globals = freshGlobals ∨ s.globals = libInstalled)
    (h4 : env.transform s.editorText = .ok js) :
    (handleCodeChange env s).globals = libInstalled ∧
      libInstalled = ⟨some ⟨.R, false⟩, some ⟨.RA, false⟩, some ⟨.P, false⟩⟩ := by
  refine ⟨?_, rfl⟩
  have h5 : defineLibs s.globals = .ok libInstalled := by
    rcases h3 with h3 | h3 <;> rw [h3] <;> rfl
  rw [handleCodeChange_run env s js libInstalled
      (env.evalCode (buildCode env js)) h1 h2 h4 h5 rfl]
  (repeat' split) <;> rfl

/-- Witness for C7: one run from a fresh page installs the three
non-writable references; the second run, from the installed state,
leaves them unchanged. -/
theorem handleCodeChange_globals_readonly_witness :
    (handleCodeChange (mkEnv (.ok "x") ⟨[], .ok .undef⟩)
        (mkState "1")).globals = libInstalled ∧
      (handleCodeChange (mkEnv (.ok "x") ⟨[], .ok .undef⟩)
          { mkState "1" with globals := libInstalled }).globals = libInstalled :=
  ⟨(handleCodeChange_globals_readonly (mkEnv (.ok "x") ⟨[], .ok .undef⟩)
      (mkState "1") "x" rfl rfl (Or.inl rfl) rfl).1,
    (handleCodeChange_globals_readonly (mkEnv (.ok "x") ⟨[], .ok .undef⟩)
      { mkState "1" with globals := libInstalled } "x" rfl rfl (Or.inr rfl) rfl).1⟩

/-! ## C3 — namespace merger disjointness and precedence -/

/-- Membership in ramda's `without`: in the second list and not in the
first. -/
theorem mem_without (xs ys : List String) (n : String) :
    n ∈ without xs ys ↔ n ∈ ys ∧ n ∉ xs := by
  simp [without]

/-- Membership in `ramdaAdjunctKeys`. -/
theorem mem_mergedKeysB (kR kRA : List String) (n : String) :
    n ∈ mergedKeysB kR kRA ↔ n ∈ kRA ∧ n ∉ kR := by
  simp [mergedKeysB, without]

/-- Membership in `purifyKeys`. -/
theorem mem_mergedKeysC (kR kRA kP : List String) (n : String) :
    n ∈ mergedKeysC kR kRA kP ↔
      n ∈ kP ∧ n ∉ kR ∧ n ∉ mergedKeysB kR kRA := by
  simp [mergedKeysC, without, not_or]

/-- C3: for any export tables and key lists of the three libraries, the
three merged name lists (`kR` itself, `mergedKeysB`, `mergedKeysC`,
computed exactly as `handleCodeChange.tsx` lines 11-13 compute
`ramdaKeys`, `ramdaAdjunctKeys`, `purifyKeys`) are pairwise disjoint,
and resolving a name through the generated destructuring prelude yields
the binding of the earliest library, in precedence order ramda >
ramda-adjunct > purify-ts: a name exported by ramda resolves to ramda's
binding, a name exported by ramda-adjunct but not ramda to
ramda-adjunct's, and a name exported only by purify-ts to
purify-ts's. -/
theorem mergedKeys_disjoint_precedence {V : Type} (tR tRA tP : String → V)
    (kR kRA kP : List String) :
    (∀ n, n ∈ kR → n ∉ mergedKeysB kR kRA) ∧
      (∀ n, n ∈ kR → n ∉ mergedKeysC kR kRA kP) ∧
      (∀ n, n ∈ mergedKeysB kR kRA → n ∉ mergedKeysC kR kRA kP) ∧
      (∀ n, n ∈ kR →
        preludeResolve tR tRA tP kR kRA kP n = some (tR n)) ∧
      (∀ n, n ∉ kR → n ∈ kRA →
        preludeResolve tR tRA tP kR kRA kP n = some (tRA n)) ∧
      (∀ n, n ∉ kR → n ∉ kRA → n ∈ kP →
        preludeResolve tR tRA tP kR kRA kP n = some (tP n)) := by
  refine ⟨?_, ?_, ?_, ?_, ?_, ?_⟩
  · intro n hn hmem
    exact ((mem_mergedKeysB kR kRA n).mp hmem).2 hn
  · intro n hn hmem
    exact ((mem_mergedKeysC kR kRA kP n).mp hmem).2.1 hn
  · intro n hn hmem
    exact ((mem_mergedKeysC kR kRA kP n).mp hmem).2.2 hn
  · intro n hn
    unfold preludeResolve
    rw [if_pos hn]
  · intro n hnR hnRA
    unfold preludeResolve
    rw [if_neg hnR, if_pos ((mem_mergedKeysB kR kRA n).mpr ⟨hnRA, hnR⟩)]
  · intro n hnR hnRA hnP
    have hB : n ∉ mergedKeysB kR kRA := fun hmem =>
      hnRA ((mem_mergedKeysB kR kRA n).mp hmem).1
    unfold preludeResolve
    rw [if_neg hnR, if_neg hB,
      if_pos ((mem_mergedKeysC kR kRA kP n).mpr ⟨hnP, hnR, hB⟩)]

/-- Witness for C3: with `zip` exported by all three libraries and
`mapIndexed` by ramda-adjunct and purify-ts only, `mapIndexed` resolves
to the ramda-adjunct binding. -/
theorem mergedKeys_disjoint_precedence_witness :
    preludeResolve (fun n => "R." ++ n) (fun n => "RA." ++ n)
        (fun n => "P." ++ n) ["zip"] ["zip", "mapIndexed"]
        ["zip", "mapIndexed", "Maybe"] "mapIndexed" = some "RA.mapIndexed" := by
  rw [(mergedKeys_disjoint_precedence (fun n => "R." ++ n)
      (fun n => "RA." ++ n) (fun n => "P." ++ n) ["zip"]
      ["zip", "mapIndexed"] ["zip", "mapIndexed", "Maybe"]).2.2.2.2.1
      "mapIndexed" (by decide) (by decide)]
  rfl

/-! ## C6 — debounce -/

/-- Content of the last notification of the list, `c` when there is
none. -/
def lastContent (c : String) : List (Nat × String) → String
  | [] => c
  | (_, c1) :: rest => lastContent c1 rest

/-- Helper: with a timer armed for `t + delay` and every remaining
notification arriving in order and before the armed deadline, no timer
fires before a notification, and the single final fire executes with
the last notification's content. -/
theorem debounceRun_chain (delay : Nat) :
    ∀ (ns : List (Nat × String)) (t : Nat) (c : String),
      chainFrom delay t ns = true →
      debounceRun delay (some (t + delay)) c ns = [lastContent c ns] := by
  intro ns
  induction ns with
  | nil => intro t c _; rfl
  | cons hd tl ih =>
    obtain ⟨t1, c1⟩ := hd
    intro t c h
    simp only [chainFrom, Bool.and_eq_true, decide_eq_true_eq] at h
    unfold debounceRun
    dsimp only
    rw [if_neg (by omega : ¬ t + delay ≤ t1)]
    exact ih t1 c1 h.2

/-- Helper: `lastContent` is the second component of `List.getLast` on a
non-empty notification list. -/
theorem lastContent_getLast :
    ∀ (ns : List (Nat × String)) (c : String) (h : ns ≠ []),
      lastContent c ns = (ns.getLast h).2 := by
  intro ns
  induction ns with
  | nil => intro c h; exact absurd rfl h
  | cons hd tl ih =>
    intro c h
    obtain ⟨t1, c1⟩ := hd
    cases tl with
    | nil => rfl
    | cons hd2 tl2 =>
      rw [lastContent, ih c1 (List.cons_ne_nil hd2 tl2),
        List.getLast_cons (List.cons_ne_nil hd2 tl2)]

/-- C6: for every non-empty sequence of content-change notifications in
which consecutive notifications are in time order and each arrives less
than the 500 ms debounce delay after the previous one (`timesOk`), the
debounced handler — which on each notification cancels any armed timer
and arms a fresh 500 ms one (`debounceRun`) — executes the pipeline
exactly once, after the last notification, with the editor content as
of that last notification. -/
theorem debounced_single_run (c0 : String) (ns : List (Nat × String))
    (hne : ns ≠ []) (h : timesOk 500 ns = true) :
    debounceRun 500 none c0 ns = [(ns.getLast hne).2] := by
  cases ns with
  | nil => exact absurd rfl hne
  | cons hd tl =>
    obtain ⟨t1, c1⟩ := hd
    simp only [timesOk] at h
    rw [← lastContent_getLast ((t1, c1) :: tl) c0 hne]
    show debounceRun 500 (some (t1 + 500)) c1 tl = [lastContent c1 tl]
    exact debounceRun_chain 500 tl t1 c1 h

/-- Witness for C6: three notifications at 0 ms, 300 ms and 700 ms (gaps
of 300 ms and 400 ms, both under the 500 ms delay) produce exactly one
pipeline execution, with the content of the 700 ms notification. -/
theorem debounced_single_run_witness :
    debounceRun 500 none "a" [(0, "ab"), (300, "abc"), (700, "abcd")] = ["abcd"] := by
  rw [debounced_single_run "a" [(0, "ab"), (300, "abc"), (700, "abcd")]
      (by decide) (by decide)]
  rfl

/-! ## C8 — `code` URL parameter round trip -/

/-- Decoding a hex digit emitted by the serializer recovers the
nibble. -/
theorem hexVal_hexDigitChar : ∀ n < 16, hexVal (hexDigitChar n) = n := by
  decide

set_option maxRecDepth 4096 in
/-- A byte the serializer leaves unescaped maps to a character that is
neither `+` nor `%` and whose code point is the byte itself. -/
theorem formSafe_char_props :
    ∀ b < 256, formSafe b = true →
      Char.ofNat b ≠ '+' ∧ Char.ofNat b ≠ '%' ∧ (Char.ofNat b).toNat = b := by
  decide

/-- Decoding undoes the encoding of one byte, whatever follows it. -/
theorem decodeParam_encodeByte (b : Nat) (hb : b < 256) (rest : List Char) :
    decodeParam (encodeByte b ++ rest) = b :: decodeParam rest := by
  by_cases h32 : b = 32
  · subst h32
    rcases rest with _ | ⟨c1, _ | ⟨c2, cs⟩⟩ <;> rfl
  · by_cases hs : formSafe b = true
    · obtain ⟨hp, hpc, htn⟩ := formSafe_char_props b hb hs
      have henc : encodeByte b = [Char.ofNat b] := by
        unfold encodeByte
        rw [if_neg h32, if_pos hs]
      rw [henc]
      rcases rest with _ | ⟨c1, _ | ⟨c2, cs⟩⟩ <;>
        simp [decodeParam, hp, hpc, htn]
    · have henc :
          encodeByte b = ['%', hexDigitChar (b / 16), hexDigitChar (b % 16)] := by
        unfold encodeByte
        rw [if_neg h32, if_neg hs]
      rw [henc]
      have hred :
          decodeParam
              ('%' :: hexDigitChar (b / 16) :: hexDigitChar (b % 16) :: rest) =
            (16 * hexVal (hexDigitChar (b / 16)) +
              hexVal (hexDigitChar (b % 16))) :: decodeParam rest := rfl
      rw [List.cons_append, List.cons_append, List.cons_append,
        List.nil_append, hred,
        hexVal_hexDigitChar (b / 16) (by omega),
        hexVal_hexDigitChar (b % 16) (by omega)]
      have hdm : 16 * (b / 16) + b % 16 = b := by omega
      rw [hdm]

/-- Decoding undoes the serializer's encoding of any byte string. -/
theorem decodeParam_encodeParam (bs : List Nat) (h : ∀ b ∈ bs, b < 256) :
    decodeParam (encodeParam bs) = bs := by
  induction bs with
  | nil => rfl
  | cons b tl ih =>
    have hb : b < 256 := h b (List.mem_cons_self b tl)
    have htl : ∀ x ∈ tl, x < 256 := fun x hx => h x (List.mem_cons_of_mem b hx)
    show decodeParam (encodeByte b ++ encodeParam tl) = b :: tl
    rw [decodeParam_encodeByte b hb (encodeParam tl), ih htl]

/-- C8: encoding the editor text into the `code` query parameter, as the
share action does (`copyCode`, `url.searchParams.set`), and loading a
fresh page with that URL (`initialCode` in `src/config/editor.ts`,
seeding `editorOptions.value`) yields an editor whose initial content
is the original text.  Texts are UTF-8 byte strings (every byte below
256), which is the domain standard URL encoding operates on; an empty
text is not written by the share action (`if (code)`), and a missing
parameter seeds an empty editor. -/
theorem code_param_roundtrip (t : List Nat) (h : ∀ b ∈ t, b < 256) :
    initialEditorContent (copyCode t) = t := by
  unfold copyCode
  by_cases ht : t.isEmpty
  · rw [if_pos ht, List.isEmpty_iff.mp ht]
    rfl
  · rw [if_neg ht]
    show (decodeParam (encodeParam t) :: []).headD [] = t
    rw [decodeParam_encodeParam t h]
    rfl

/-- Witness for C8: the byte string of `hej %+` followed by a newline —
exercising the unescaped, space, percent-escape and plus cases — round
trips through the `code` parameter. -/
theorem code_param_roundtrip_witness :
    initialEditorContent (copyCode [104, 101, 106, 32, 37, 43, 10]) =
      [104, 101, 106, 32, 37, 43, 10] :=
  code_param_roundtrip [104, 101, 106, 32, 37, 43, 10] (by decide)
